import Mathlib

/-!
Verification of the NextLens chat backend (notificationRoutes.js).

The definitions below are a shallow embedding of the chat route handlers:
ids generated by the database are modelled as naturals handed out from
counters in the state, the server clock is a natural `now`, nullable
columns and absent request-body fields are `Option`, and each handler is
a pure function from the database state and the authenticated caller to
the next state paired with an HTTP-level outcome.
-/

namespace NextLens

/-- HTTP-level outcomes of the route handlers: 400, 403, 404 and 500. -/
inductive ApiError where
  | badRequest
  | forbidden
  | notFound
  | internal
deriving Repr, DecidableEq

/-- One entry of the jsonb `files_urls` array stored with a message
(built at notificationRoutes.js:938-942). -/
structure FileMeta where
  name : String
  type : String
  url : String
deriving Repr, DecidableEq

/-- A row of the `messages` table (columns used by the handlers). -/
structure Message where
  id : Nat
  chat_id : Nat
  sender_id : String
  text : Option String
  files_urls : Option (List FileMeta)
  reply_to_message_id : Option Nat
  created_at : Nat
  is_edited : Bool
  is_pinned : Bool
  deleted_by : Option (List String)
deriving Repr, DecidableEq

/-- A row of the `chat_rooms` table (columns used by the handlers). -/
structure ChatRoom where
  id : Nat
  participants : List String
  last_message : String
  last_message_timestamp : Nat
deriving Repr, DecidableEq

/-- A row of the `blocked_users` table. -/
structure BlockRelation where
  blocker_id : String
  blocked_id : String
deriving Repr, DecidableEq

/-- The persistent store together with the id counters the database
would use for generated primary keys and the server clock used for
`created_at` and `new Date()`. -/
structure DB where
  chat_rooms : List ChatRoom
  messages : List Message
  blocked_users : List BlockRelation
  nextMessageId : Nat
  nextRoomId : Nat
  now : Nat
deriving Repr, DecidableEq

/-- Truthiness of an optional request-body string, as JavaScript tests it:
absent, null and the empty string are falsy. -/
def strTruthy : Option String → Bool
  | none => false
  | some s => s ≠ ""

/-- The `x || null` idiom applied to an optional string: a falsy value
(absent or empty) is stored as null. -/
def orNull : Option String → Option String
  | none => none
  | some s => if s = "" then none else some s

/-- Looks up a message row by primary key, as the query filtered by id with
a single result does at notificationRoutes.js:1124-1128. -/
def findMessage (db : DB) (messageId : Nat) : Option Message :=
  db.messages.find? (fun m => m.id == messageId)

/-- DELETE /delete-message/:messageId (notificationRoutes.js:1118-1159).
Fetches the message (404 when absent), returns early when the caller is
already in `deleted_by`, and otherwise appends the caller to `deleted_by`. -/
def deleteMessage (db : DB) (messageId : Nat) (userId : String) :
    DB × Except ApiError Unit :=
  match findMessage db messageId with
  | none => (db, .error .notFound)
  | some message =>
    let currentDeletedBy := message.deleted_by.getD []
    if currentDeletedBy.contains userId then
      (db, .ok ())
    else
      let newDeletedBy := currentDeletedBy ++ [userId]
      ({ db with
          messages := db.messages.map (fun m =>
            if m.id == messageId then { m with deleted_by := some newDeletedBy } else m) },
       .ok ())

/-- PUT /pin-message/:messageId (notificationRoutes.js:1162-1205).
The body field `pin` is required to be a boolean (modelled by the `Bool`
argument); the handler fetches the message (404 when absent) and then sets
`is_pinned` without any participant-membership check: the authenticated
caller `_userId` is never consulted after authentication. -/
def pinMessage (db : DB) (messageId : Nat) (pin : Bool) (_userId : String) :
    DB × Except ApiError Unit :=
  match findMessage db messageId with
  | none => (db, .error .notFound)
  | some _ =>
    ({ db with
        messages := db.messages.map (fun m =>
          if m.id == messageId then { m with is_pinned := pin } else m) },
     .ok ())

/-- The exact-count query at notificationRoutes.js:1230-1234: how many
`blocked_users` rows carry the given ordered pair. -/
def blockPairCount (db : DB) (blockerId blocked : String) : Nat :=
  db.blocked_users.countP (fun b => b.blocker_id == blockerId && b.blocked_id == blocked)

/-- POST /block-user (notificationRoutes.js:1208-1261). The body field
`blockedUserId` is falsy-checked together with equality to the caller;
an existing ordered pair short-circuits to success without an insert. -/
def blockUser (db : DB) (blockerId : String) (blockedUserId : Option String) :
    DB × Except ApiError Unit :=
  match blockedUserId with
  | none => (db, .error .badRequest)
  | some blocked =>
    if blocked = "" ∨ blockerId = blocked then
      (db, .error .badRequest)
    else
      if blockPairCount db blockerId blocked > 0 then
        (db, .ok ())
      else
        ({ db with blocked_users := db.blocked_users ++ [⟨blockerId, blocked⟩] }, .ok ())

/-- Stable insertion of a message into a list ascending by `created_at`. -/
def insertByCreatedAt (m : Message) : List Message → List Message
  | [] => [m]
  | x :: xs =>
    if m.created_at ≤ x.created_at then m :: x :: xs
    else x :: insertByCreatedAt m xs

/-- Stable sort ascending by `created_at`, modelling the query clause
the ascending order-by-created_at clause at notificationRoutes.js:856. -/
def sortByCreatedAt : List Message → List Message
  | [] => []
  | x :: xs => insertByCreatedAt x (sortByCreatedAt xs)

/-- The message object shape built for the frontend at
notificationRoutes.js:864-875 and again at lines 993-1004: exactly these
properties and no others. Timestamps stay naturals (the ISO rendering is
injective on the clock). `replyTo` keeps only the wrapped message id. -/
structure MsgView where
  id : Nat
  chatId : Nat
  senderId : String
  sender : String
  text : Option String
  files : List FileMeta
  replyTo : Option Nat
  time : Nat
  isEdited : Bool
  isPinned : Bool
deriving Repr, DecidableEq

/-- The per-message transform at notificationRoutes.js:864-875. Message ids
model non-empty uuid strings, so the truthiness test on
`msg.reply_to_message_id` is its presence. -/
def transformMessage (userId : String) (msg : Message) : MsgView :=
  { id := msg.id
    chatId := msg.chat_id
    senderId := msg.sender_id
    sender := if msg.sender_id == userId then "my" else "other"
    text := msg.text
    files := msg.files_urls.getD []
    replyTo := msg.reply_to_message_id
    time := msg.created_at
    isEdited := msg.is_edited
    isPinned := msg.is_pinned }

/-- The filter predicate applied at notificationRoutes.js:878-880. It runs
over the transformed view objects produced at lines 864-875, and those
objects carry no `deleted_by` property, so the JavaScript lookup
`msg.deleted_by` yields `undefined` and the conjunction
`msg.deleted_by && msg.deleted_by.includes(userId)` is always falsy:
no view is ever removed by the filter. -/
def viewDeletedByTest (_userId : String) (_v : MsgView) : Bool := false

/-- GET /get-messages/:chatId (notificationRoutes.js:833-887). Verifies the
viewer is a participant of the room (403 otherwise), fetches the room
messages ordered by `created_at` ascending, transforms them, and applies
the (vacuous) deleted-by filter. -/
def getMessages (db : DB) (chatId : Nat) (userId : String) :
    Except ApiError (List MsgView) :=
  match db.chat_rooms.find? (fun r => r.id == chatId && r.participants.contains userId) with
  | none => .error .forbidden
  | some _ =>
    let messages := sortByCreatedAt (db.messages.filter (fun m => m.chat_id == chatId))
    let transformedMessages := messages.map (transformMessage userId)
    let filteredMessages :=
      transformedMessages.filter (fun v => !(viewDeletedByTest userId v))
    .ok filteredMessages

/-- One multipart upload as the send handler reads it from `req.files`. -/
structure UploadFile where
  originalname : String
  mimetype : String
deriving Repr, DecidableEq

/-- The request body of POST /send-message. -/
structure SendInput where
  chatRoomId : Option Nat
  text : Option String
  replyToMessageId : Option Nat
  files : List UploadFile
deriving Repr, DecidableEq

/-- The public URL the blob store hands back for the storage path
`chatRoomId/senderId/Date.now()-originalname` built at
notificationRoutes.js:916; the store is modelled as always succeeding
and deterministic in the path. -/
def publicUrl (chatRoomId : Nat) (senderId : String) (now : Nat)
    (originalname : String) : String :=
  toString chatRoomId ++ "/" ++ senderId ++ "/" ++ toString now ++ "-" ++ originalname

/-- POST /send-message (notificationRoutes.js:890-1011). Validates inputs,
checks participant membership, uploads every attachment, inserts the
message row, and updates the room preview and timestamp. The response
object at lines 993-1004 then reads the identifier `userId` (line 997),
which is not declared anywhere in this handler or its enclosing scopes
(the handler declares `senderId` at line 892): evaluating it throws a
ReferenceError, which the catch block at line 1007 turns into a 500
response, after the message insert and the room update have already been
committed. -/
def sendMessage (db : DB) (senderId : String) (inp : SendInput) :
    DB × Except ApiError MsgView :=
  match inp.chatRoomId with
  | none => (db, .error .badRequest)
  | some chatRoomId =>
    if !strTruthy inp.text && inp.files.isEmpty then
      (db, .error .badRequest)
    else
      let participantCount :=
        db.chat_rooms.countP (fun r => r.id == chatRoomId && r.participants.contains senderId)
      if participantCount = 0 then
        (db, .error .forbidden)
      else
        let uploadedFilesUrls := inp.files.map (fun f =>
          { name := f.originalname
            type := f.mimetype
            url := publicUrl chatRoomId senderId db.now f.originalname : FileMeta })
        let newMessage : Message :=
          { id := db.nextMessageId
            chat_id := chatRoomId
            sender_id := senderId
            text := orNull inp.text
            files_urls := if uploadedFilesUrls.length > 0 then some uploadedFilesUrls else none
            reply_to_message_id := inp.replyToMessageId
            created_at := db.now
            is_edited := false
            is_pinned := false
            deleted_by := none }
        let db1 := { db with
          messages := db.messages ++ [newMessage]
          nextMessageId := db.nextMessageId + 1 }
        let preview :=
          if strTruthy inp.text then (inp.text.getD "").take 100
          else if uploadedFilesUrls.length > 0 then
            "Sent " ++ toString uploadedFilesUrls.length ++ " file(s)"
          else ""
        let db2 := { db1 with
          chat_rooms := db1.chat_rooms.map (fun r =>
            if r.id == chatRoomId then
              { r with last_message := preview, last_message_timestamp := db.now }
            else r) }
        (db2, .error .internal)

/-- PUT /edit-message/:messageId (notificationRoutes.js:1073-1115).
Rejects a falsy `newText` with 400, fetches the message filtered by both
id and sender (403 when that yields no row, whether the message is absent
or the caller is not its sender), then sets `text` and `is_edited` and
returns the updated row. -/
def editMessage (db : DB) (messageId : Nat) (userId : String)
    (newText : Option String) : DB × Except ApiError Message :=
  if !strTruthy newText then
    (db, .error .badRequest)
  else
    match db.messages.find? (fun m => m.id == messageId && m.sender_id == userId) with
    | none => (db, .error .forbidden)
    | some _ =>
      let db1 := { db with
        messages := db.messages.map (fun m =>
          if m.id == messageId then { m with text := newText, is_edited := true } else m) }
      match db1.messages.find? (fun m => m.id == messageId) with
      | some updated => (db1, .ok updated)
      | none => (db1, .error .internal)

/-- Phase one of POST /create-chat-room: the awaited lookup at
notificationRoutes.js:1026-1031 for a room whose `participants` array
contains both user ids, returning its id when one exists. -/
def createChatRoomCheck (db : DB) (userId otherId : String) : Option Nat :=
  (db.chat_rooms.find? (fun r =>
    r.participants.contains userId && r.participants.contains otherId)).map (fun r => r.id)

/-- Phase two of POST /create-chat-room: the awaited insert at
notificationRoutes.js:1053-1057 of a fresh two-participant room. -/
def createChatRoomInsert (db : DB) (userId otherId : String) : DB × Nat :=
  ({ db with
      chat_rooms := db.chat_rooms ++
        [{ id := db.nextRoomId
           participants := [userId, otherId]
           last_message := ""
           last_message_timestamp := db.now }]
      nextRoomId := db.nextRoomId + 1 },
   db.nextRoomId)

/-- POST /create-chat-room (notificationRoutes.js:1014-1070), as one request
executes it: validation, then the lookup phase, then, when no room was
found, the insert phase. The two phases are separated by an await in the
handler, so two in-flight requests may interleave them. -/
def createChatRoom (db : DB) (userId : String) (otherParticipantId : Option String) :
    DB × Except ApiError Nat :=
  match otherParticipantId with
  | none => (db, .error .badRequest)
  | some otherId =>
    if otherId = "" ∨ userId = otherId then
      (db, .error .badRequest)
    else
      match createChatRoomCheck db userId otherId with
      | some roomId => (db, .ok roomId)
      | none =>
        let result := createChatRoomInsert db userId otherId
        (result.1, .ok result.2)

/-! Helper lemmas about the list operations the handlers use. -/

/-- Finding under a predicate is unchanged by mapping a function that the
predicate cannot observe. -/
theorem find?_map_pred {α : Type} (f : α → α) (p : α → Bool) (l : List α)
    (h : ∀ a, p (f a) = p a) : (l.map f).find? p = (l.find? p).map f := by
  rw [List.find?_map]
  have hpf : p ∘ f = p := funext h
  rw [hpf]

/-- Filtering under a predicate commutes with mapping a function that the
predicate cannot observe. -/
theorem filter_map_pred {α : Type} (f : α → α) (p : α → Bool) (l : List α)
    (h : ∀ a, p (f a) = p a) : (l.map f).filter p = (l.filter p).map f := by
  rw [List.filter_map]
  have hpf : p ∘ f = p := funext h
  rw [hpf]

/-- Stable insertion commutes with mapping a function that keeps
`created_at` fixed. -/
theorem insertByCreatedAt_map (f : Message → Message)
    (hf : ∀ m, (f m).created_at = m.created_at) (m : Message) (l : List Message) :
    insertByCreatedAt (f m) (l.map f) = (insertByCreatedAt m l).map f := by
  induction l with
  | nil => rfl
  | cons x xs ih =>
    simp only [List.map_cons, insertByCreatedAt, hf]
    by_cases hle : m.created_at ≤ x.created_at
    · simp [hle]
    · simp [hle, ih]

/-- Sorting by `created_at` commutes with mapping a function that keeps
`created_at` fixed. -/
theorem sortByCreatedAt_map (f : Message → Message)
    (hf : ∀ m, (f m).created_at = m.created_at) (l : List Message) :
    sortByCreatedAt (l.map f) = (sortByCreatedAt l).map f := by
  induction l with
  | nil => rfl
  | cons x xs ih =>
    simp only [List.map_cons, sortByCreatedAt, ih]
    exact insertByCreatedAt_map f hf x (sortByCreatedAt xs)

/-! Concrete states used by the ground-level theorems below. -/

/-- A room between alice and bob. -/
def exRoom : ChatRoom :=
  { id := 1, participants := ["alice", "bob"], last_message := "", last_message_timestamp := 0 }

/-- A message from bob in room 1 that alice has soft-deleted for herself. -/
def exMsgDel : Message :=
  { id := 1, chat_id := 1, sender_id := "bob", text := some "hi", files_urls := none,
    reply_to_message_id := none, created_at := 5, is_edited := false, is_pinned := false,
    deleted_by := some ["alice"] }

/-- A store holding room 1 and the soft-deleted message. -/
def exDB1 : DB :=
  { chat_rooms := [exRoom], messages := [exMsgDel], blocked_users := [],
    nextMessageId := 2, nextRoomId := 2, now := 10 }

/-- A store holding room 1 and no messages. -/
def exDB0 : DB :=
  { chat_rooms := [exRoom], messages := [], blocked_users := [],
    nextMessageId := 1, nextRoomId := 2, now := 10 }

/-- The request body of a plain-text send of "hello" into room 1. -/
def sendHello : SendInput :=
  { chatRoomId := some 1, text := some "hello", replyToMessageId := none, files := [] }

/-- The empty store. -/
def dbEmpty : DB :=
  { chat_rooms := [], messages := [], blocked_users := [],
    nextMessageId := 1, nextRoomId := 1, now := 0 }

/-! Claim theorems. -/

/-- C1: the claim states that for a participant viewer, listMessages never
includes a message whose deletedBy set contains the viewer. The code
violates this: the deleted-by filter at notificationRoutes.js:878-880 runs
over the transformed objects built at lines 864-875, which carry no
`deleted_by` property, so nothing is ever filtered out. Concretely, alice
is a participant of room 1 and message 1 carries alice in `deleted_by`,
yet the returned list still contains that message. -/
theorem getMessages_returns_message_deleted_by_viewer :
    exMsgDel.deleted_by = some ["alice"]
    ∧ exRoom.participants.contains "alice" = true
    ∧ getMessages exDB1 1 "alice" = .ok [transformMessage "alice" exMsgDel] :=
  ⟨rfl, rfl, rfl⟩

/-- C3: the claim states that a successful send returns the created message
shaped like a listMessages entry. The code cannot: the response object at
notificationRoutes.js:997 reads the undeclared identifier `userId` (the
handler declares `senderId`), so the handler throws and replies 500 on
every send that reaches the response step, after the message row has
already been inserted. Concretely, a valid send into room 1 yields the
internal error while the message count grew by one; and in general no
invocation of the handler ever produces a success payload. -/
theorem sendMessage_response_crashes_despite_insert :
    ((sendMessage exDB0 "alice" sendHello).2 = .error .internal
      ∧ (sendMessage exDB0 "alice" sendHello).1.messages.length = exDB0.messages.length + 1)
    ∧ ∀ (db : DB) (s : String) (inp : SendInput),
        ∃ e, (sendMessage db s inp).2 = Except.error e := by
  refine ⟨⟨rfl, rfl⟩, ?_⟩
  intro db s inp
  unfold sendMessage
  cases inp.chatRoomId with
  | none => exact ⟨.badRequest, rfl⟩
  | some cid =>
    dsimp only
    split
    · exact ⟨.badRequest, rfl⟩
    · split
      · exact ⟨.forbidden, rfl⟩
      · exact ⟨.internal, rfl⟩

/-- C5 counterexample: the claim states that editMessage fails with
Forbidden whenever the caller is not the original sender, for every
message state. In the code the falsy check on `newText` at
notificationRoutes.js:1078 runs before the sender check, so the
non-sender eve calling with an empty newText on the message whose sender
is bob gets the 400 invalid-argument error, not Forbidden. -/
theorem editMessage_nonsender_empty_text_not_forbidden :
    exMsgDel.sender_id = "bob"
    ∧ editMessage exDB1 1 "eve" (some "") = (exDB1, .error .badRequest)
    ∧ ApiError.badRequest ≠ ApiError.forbidden :=
  ⟨rfl, rfl, by decide⟩

/-- C5 (amended): editMessage fails with InvalidArgument when newText is
empty or missing; when newText is non-empty it fails with Forbidden
whenever no message exists with the given id and the caller as sender,
and on success it sets text to newText and isEdited to true. -/
theorem editMessage_checks_text_then_sender (db : DB) (mid : Nat) (caller : String)
    (newText : Option String) :
    (strTruthy newText = false → editMessage db mid caller newText = (db, .error .badRequest))
    ∧ (∀ t, newText = some t → t ≠ "" →
        (db.messages.find? (fun m => m.id == mid && m.sender_id == caller) = none →
          editMessage db mid caller newText = (db, .error .forbidden))
        ∧ (∀ msg, db.messages.find? (fun m => m.id == mid && m.sender_id == caller) = some msg →
            (∃ u, (editMessage db mid caller newText).2 = Except.ok u)
            ∧ ∀ m, m ∈ (editMessage db mid caller newText).1.messages → m.id = mid →
                m.text = some t ∧ m.is_edited = true)) := by
  constructor
  · intro hfalsy
    unfold editMessage
    rw [hfalsy]
    rfl
  · rintro t rfl ht
    have htrue : strTruthy (some t) = true := by simp [strTruthy, ht]
    constructor
    · intro hnone
      unfold editMessage
      rw [htrue, hnone]
      rfl
    · intro msg hmsg
      have hmem : ∃ x ∈ db.messages.map (fun m =>
          if m.id == mid then { m with text := some t, is_edited := true } else m),
          (x.id == mid) = true := by
        have hpmsg := List.find?_some hmsg
        rw [Bool.and_eq_true] at hpmsg
        refine ⟨if msg.id == mid then { msg with text := some t, is_edited := true } else msg,
          List.mem_map.mpr ⟨msg, List.mem_of_find?_eq_some hmsg, rfl⟩, ?_⟩
        rw [if_pos hpmsg.1]
        exact hpmsg.1
      obtain ⟨upd, hupd⟩ := Option.isSome_iff_exists.mp (List.find?_isSome.mpr hmem)
      have hred : editMessage db mid caller (some t)
          = ({ db with messages := db.messages.map (fun m =>
                if m.id == mid then { m with text := some t, is_edited := true } else m) },
              Except.ok upd) := by
        unfold editMessage
        rw [htrue, hmsg]
        simp only [Bool.not_true, Bool.false_eq_true, if_false]
        rw [hupd]
      constructor
      · rw [hred]
        exact ⟨upd, rfl⟩
      · intro m hm hid
        rw [hred] at hm
        obtain ⟨m0, _, hm0⟩ := List.mem_map.mp hm
        by_cases h0 : (m0.id == mid) = true
        · rw [if_pos h0] at hm0
          rw [← hm0]
          exact ⟨rfl, rfl⟩
        · rw [if_neg h0] at hm0
          rw [← hm0] at hid
          exact absurd (beq_iff_eq.mpr hid) h0

/-- C5 witness: the amended theorem applied at concrete inputs: empty text
gives the 400 error, a non-sender with non-empty text gets Forbidden, and
the sender editing message 1 to "fixed" leaves it with the new text and
the edited flag. -/
theorem editMessage_checks_text_then_sender_witness :
    editMessage exDB1 1 "bob" (some "") = (exDB1, .error .badRequest)
    ∧ editMessage exDB1 1 "eve" (some "fixed") = (exDB1, .error .forbidden)
    ∧ ∀ m, m ∈ (editMessage exDB1 1 "bob" (some "fixed")).1.messages → m.id = 1 →
        m.text = some "fixed" ∧ m.is_edited = true := by
  refine ⟨(editMessage_checks_text_then_sender exDB1 1 "bob" (some "")).1 (by decide),
    ((editMessage_checks_text_then_sender exDB1 1 "eve" (some "fixed")).2 "fixed" rfl
      (by decide)).1 (by decide), ?_⟩
  exact (((editMessage_checks_text_then_sender exDB1 1 "bob" (some "fixed")).2 "fixed" rfl
      (by decide)).2 exMsgDel (by rfl)).2

/-- C6 counterexample: the claim states at most one room with participant
set containing A and B ever exists, including under concurrent invocation.
The lookup (notificationRoutes.js:1026-1031) and the insert (lines
1053-1057) are separated by an await, so two concurrent requests for the
pair (alice, bob) can both run the lookup against the initial empty store
(both see no room, as the first two conjuncts show) and then both run the
insert, leaving two rooms whose participants contain both users. -/
theorem createChatRoom_concurrent_duplicate_rooms :
    createChatRoomCheck dbEmpty "alice" "bob" = none
    ∧ createChatRoomCheck dbEmpty "bob" "alice" = none
    ∧ ((createChatRoomInsert (createChatRoomInsert dbEmpty "alice" "bob").1
          "bob" "alice").1.chat_rooms.countP
        (fun r => r.participants.contains "alice" && r.participants.contains "bob")) = 2 :=
  ⟨rfl, rfl, by decide⟩

/-- C10: when the message id resolves to no message at all, editMessage
fails with Forbidden rather than NotFound, because the fetch at
notificationRoutes.js:1084-1089 filters by id and sender together, making
nonexistence and non-ownership indistinguishable at the interface. -/
theorem editMessage_absent_message_forbidden (db : DB) (mid : Nat) (caller : String)
    (t : String) (ht : t ≠ "")
    (habs : db.messages.find? (fun m => m.id == mid) = none) :
    editMessage db mid caller (some t) = (db, .error .forbidden) := by
  have htrue : strTruthy (some t) = true := by simp [strTruthy, ht]
  have h2 : db.messages.find? (fun m => m.id == mid && m.sender_id == caller) = none := by
    rw [List.find?_eq_none] at habs ⊢
    intro x hx hpx
    rw [Bool.and_eq_true] at hpx
    exact habs x hx hpx.1
  unfold editMessage
  rw [htrue, h2]
  rfl

/-- C10 witness: editing the absent message 5 in a store that only holds
message 1 yields Forbidden. -/
theorem editMessage_absent_message_forbidden_witness :
    editMessage exDB1 5 "alice" (some "x") = (exDB1, .error .forbidden) :=
  editMessage_absent_message_forbidden exDB1 5 "alice" "x" (by decide) (by rfl)

/-- C7: setPinned fails with NotFound exactly when no message with the id
exists; otherwise it sets isPinned to the given boolean, and the outcome
is independent of which authenticated caller performs it, since the
handler never checks participant membership. -/
theorem pinMessage_spec (db : DB) (mid : Nat) (pin : Bool) (caller : String) :
    (findMessage db mid = none → pinMessage db mid pin caller = (db, .error .notFound))
    ∧ (∀ msg, findMessage db mid = some msg →
        (pinMessage db mid pin caller).2 = .ok ()
        ∧ findMessage (pinMessage db mid pin caller).1 mid = some { msg with is_pinned := pin })
    ∧ (∀ caller2, pinMessage db mid pin caller = pinMessage db mid pin caller2) := by
  refine ⟨?_, ?_, fun caller2 => rfl⟩
  · intro hnone
    unfold pinMessage
    rw [hnone]
  · intro msg hmsg
    have hred : pinMessage db mid pin caller
        = ({ db with messages := db.messages.map (fun m =>
              if m.id == mid then { m with is_pinned := pin } else m) }, .ok ()) := by
      unfold pinMessage
      rw [hmsg]
    refine ⟨by rw [hred], ?_⟩
    rw [hred]
    unfold findMessage at hmsg ⊢
    rw [find?_map_pred _ _ _ (fun a => by by_cases h : (a.id == mid) = true <;> simp [h]), hmsg]
    have hid := List.find?_some hmsg
    dsimp only [Option.map]
    rw [if_pos hid]

/-- C7 witness: pinning the absent message 7 fails with NotFound, pinning
the present message 1 stores the pinned flag, and eve and mallory obtain
the same outcome. -/
theorem pinMessage_spec_witness :
    pinMessage exDB0 7 true "eve" = (exDB0, .error .notFound)
    ∧ findMessage (pinMessage exDB1 1 true "eve").1 1 = some { exMsgDel with is_pinned := true }
    ∧ pinMessage exDB1 1 true "eve" = pinMessage exDB1 1 true "mallory" := by
  refine ⟨(pinMessage_spec exDB0 7 true "eve").1 (by rfl),
    ((pinMessage_spec exDB1 1 true "eve").2.1 exMsgDel (by rfl)).2,
    (pinMessage_spec exDB1 1 true "eve").2.2 "mallory"⟩

/-- C8: blockUser fails with InvalidArgument when the caller blocks
themselves; when the ordered pair already exists it succeeds without
inserting; otherwise it appends exactly one relation; and in every case
the bound of at most one relation per ordered pair is preserved. -/
theorem blockUser_spec (db : DB) (blocker blocked : String) :
    (blocker = blocked → blockUser db blocker (some blocked) = (db, .error .badRequest))
    ∧ (blocked ≠ "" → blocker ≠ blocked → blockPairCount db blocker blocked > 0 →
        blockUser db blocker (some blocked) = (db, .ok ()))
    ∧ (blocked ≠ "" → blocker ≠ blocked → blockPairCount db blocker blocked = 0 →
        blockUser db blocker (some blocked) =
          ({ db with blocked_users := db.blocked_users ++ [⟨blocker, blocked⟩] }, .ok ())
        ∧ blockPairCount (blockUser db blocker (some blocked)).1 blocker blocked = 1)
    ∧ (blockPairCount db blocker blocked ≤ 1 →
        blockPairCount (blockUser db blocker (some blocked)).1 blocker blocked ≤ 1) := by
  have hsingle : blockPairCount { db with blocked_users := db.blocked_users ++ [⟨blocker, blocked⟩] }
      blocker blocked = blockPairCount db blocker blocked + 1 := by
    unfold blockPairCount
    rw [List.countP_append]
    simp
  refine ⟨?_, ?_, ?_, ?_⟩
  · intro heq
    unfold blockUser
    dsimp only
    rw [if_pos (Or.inr heq)]
  · intro hne hneq hpos
    have hcond : ¬(blocked = "" ∨ blocker = blocked) := by
      rintro (h | h)
      · exact hne h
      · exact hneq h
    unfold blockUser
    dsimp only
    rw [if_neg hcond, if_pos hpos]
  · intro hne hneq hzero
    have hcond : ¬(blocked = "" ∨ blocker = blocked) := by
      rintro (h | h)
      · exact hne h
      · exact hneq h
    have hred : blockUser db blocker (some blocked)
        = ({ db with blocked_users := db.blocked_users ++ [⟨blocker, blocked⟩] }, .ok ()) := by
      unfold blockUser
      dsimp only
      rw [if_neg hcond, if_neg (by omega)]
    exact ⟨hred, by rw [hred, hsingle, hzero]⟩
  · intro hle
    unfold blockUser
    dsimp only
    by_cases hcond : blocked = "" ∨ blocker = blocked
    · rw [if_pos hcond]
      exact hle
    · rw [if_neg hcond]
      by_cases hpos : blockPairCount db blocker blocked > 0
      · rw [if_pos hpos]
        exact hle
      · rw [if_neg hpos]
        have hzero : blockPairCount db blocker blocked = 0 := by omega
        rw [hsingle, hzero]

/-- C8 witness: blocking oneself is rejected, blocking bob from the empty
ledger inserts exactly one relation, and re-blocking keeps the outcome
successful while the pair count stays one. -/
theorem blockUser_spec_witness :
    blockUser dbEmpty "alice" (some "alice") = (dbEmpty, .error .badRequest)
    ∧ blockUser dbEmpty "alice" (some "bob") =
        ({ dbEmpty with blocked_users := [⟨"alice", "bob"⟩] }, .ok ())
    ∧ blockUser (blockUser dbEmpty "alice" (some "bob")).1 "alice" (some "bob") =
        ((blockUser dbEmpty "alice" (some "bob")).1, .ok ())
    ∧ blockPairCount (blockUser dbEmpty "alice" (some "bob")).1 "alice" "bob" ≤ 1 := by
  refine ⟨(blockUser_spec dbEmpty "alice" "alice").1 rfl,
    ((blockUser_spec dbEmpty "alice" "bob").2.2.1 (by decide) (by decide) (by decide)).1,
    (blockUser_spec (blockUser dbEmpty "alice" (some "bob")).1 "alice" "bob").2.1
      (by decide) (by decide) (by decide),
    (blockUser_spec dbEmpty "alice" "bob").2.2.2 (by decide)⟩

/-- C2: softDeleteForUser fails with NotFound when the message does not
exist; otherwise, when the caller is not yet in deleted_by, it succeeds
and appends the caller to the deleted_by set of that message; applying it
a second time for the same (message, user) leaves the state exactly as
after the first application; and it never changes what any other
participant sees through listMessages. -/
theorem deleteMessage_idempotent_and_local (db : DB) (mid : Nat) (u : String) :
    (findMessage db mid = none → deleteMessage db mid u = (db, .error .notFound))
    ∧ (∀ msg, findMessage db mid = some msg → (msg.deleted_by.getD []).contains u = false →
        (deleteMessage db mid u).2 = .ok ()
        ∧ findMessage (deleteMessage db mid u).1 mid =
            some { msg with deleted_by := some ((msg.deleted_by.getD []) ++ [u]) })
    ∧ (deleteMessage (deleteMessage db mid u).1 mid u).1 = (deleteMessage db mid u).1
    ∧ (∀ chatId v, v ≠ u →
        getMessages (deleteMessage db mid u).1 chatId v = getMessages db chatId v) := by
  have hredNone : findMessage db mid = none → deleteMessage db mid u = (db, .error .notFound) := by
    intro hnone
    unfold deleteMessage
    rw [hnone]
  have hredIn : ∀ msg, findMessage db mid = some msg →
      ((msg.deleted_by.getD []).contains u) = true → deleteMessage db mid u = (db, .ok ()) := by
    intro msg hmsg hin
    unfold deleteMessage
    rw [hmsg]
    dsimp only
    rw [if_pos hin]
  have hredOut : ∀ msg, findMessage db mid = some msg →
      ((msg.deleted_by.getD []).contains u) = false →
      deleteMessage db mid u
        = ({ db with messages := db.messages.map (fun m =>
              if m.id == mid then
                { m with deleted_by := some ((msg.deleted_by.getD []) ++ [u]) }
              else m) },
           .ok ()) := by
    intro msg hmsg hout
    unfold deleteMessage
    rw [hmsg]
    dsimp only
    rw [if_neg (by rw [hout]; exact Bool.false_ne_true)]
  have hfindUpd : ∀ msg, findMessage db mid = some msg →
      ((msg.deleted_by.getD []).contains u) = false →
      findMessage (deleteMessage db mid u).1 mid =
        some { msg with deleted_by := some ((msg.deleted_by.getD []) ++ [u]) } := by
    intro msg hmsg hout
    rw [hredOut msg hmsg hout]
    unfold findMessage at hmsg ⊢
    rw [find?_map_pred _ _ _ (fun a => by
      by_cases h : (a.id == mid) = true <;> simp [h]), hmsg]
    dsimp only [Option.map]
    rw [if_pos (List.find?_some hmsg)]
  refine ⟨hredNone, fun msg hmsg hout => ⟨by rw [hredOut msg hmsg hout], hfindUpd msg hmsg hout⟩,
    ?_, ?_⟩
  · cases hm : findMessage db mid with
    | none =>
      rw [hredNone hm]
      dsimp only
      rw [hredNone hm]
    | some msg =>
      by_cases hc : ((msg.deleted_by.getD []).contains u) = true
      · rw [hredIn msg hm hc]
        dsimp only
        rw [hredIn msg hm hc]
      · have hout : ((msg.deleted_by.getD []).contains u) = false := by
          rwa [Bool.not_eq_true] at hc
        have hfm1 := hfindUpd msg hm hout
        have h2 : deleteMessage (deleteMessage db mid u).1 mid u
            = ((deleteMessage db mid u).1, .ok ()) := by
          generalize hdb1 : (deleteMessage db mid u).1 = db1 at hfm1
          unfold deleteMessage
          rw [hfm1]
          dsimp only
          rw [if_pos (by simp)]
        rw [h2]
  · intro chatId v _hvu
    cases hm : findMessage db mid with
    | none =>
      rw [hredNone hm]
    | some msg =>
      by_cases hc : ((msg.deleted_by.getD []).contains u) = true
      · rw [hredIn msg hm hc]
      · have hout : ((msg.deleted_by.getD []).contains u) = false := by
          rwa [Bool.not_eq_true] at hc
        rw [hredOut msg hm hout]
        unfold getMessages
        dsimp only
        cases hroom : db.chat_rooms.find? (fun r => r.id == chatId && r.participants.contains v) with
        | none => rfl
        | some r =>
          have hfilter : (db.messages.map (fun m =>
                if m.id == mid then
                  { m with deleted_by := some ((msg.deleted_by.getD []) ++ [u]) }
                else m)).filter (fun m => m.chat_id == chatId)
              = (db.messages.filter (fun m => m.chat_id == chatId)).map (fun m =>
                if m.id == mid then
                  { m with deleted_by := some ((msg.deleted_by.getD []) ++ [u]) }
                else m) :=
            filter_map_pred _ _ _ (fun a => by
              by_cases h : (a.id == mid) = true <;> simp [h])
          rw [hfilter, sortByCreatedAt_map _ (fun a => by
              by_cases h : (a.id == mid) = true <;> simp [h]), List.map_map]
          rw [List.map_congr_left (fun a _ha => by
            show transformMessage v (if a.id == mid then
              { a with deleted_by := some ((msg.deleted_by.getD []) ++ [u]) } else a)
              = transformMessage v a
            by_cases h : (a.id == mid) = true
            · rw [if_pos h]
              rfl
            · rw [if_neg h])]

/-- C2 witness: deleting the absent message 99 is NotFound; bob deleting
message 1 appends bob after alice in deleted_by; a second delete by bob
changes nothing; and the listing alice sees is untouched. -/
theorem deleteMessage_idempotent_and_local_witness :
    deleteMessage exDB1 99 "bob" = (exDB1, .error .notFound)
    ∧ findMessage (deleteMessage exDB1 1 "bob").1 1 =
        some { exMsgDel with deleted_by := some ["alice", "bob"] }
    ∧ (deleteMessage (deleteMessage exDB1 1 "bob").1 1 "bob").1 = (deleteMessage exDB1 1 "bob").1
    ∧ getMessages (deleteMessage exDB1 1 "bob").1 1 "alice" = getMessages exDB1 1 "alice" := by
  refine ⟨(deleteMessage_idempotent_and_local exDB1 99 "bob").1 (by rfl),
    ?_,
    (deleteMessage_idempotent_and_local exDB1 1 "bob").2.2.1,
    (deleteMessage_idempotent_and_local exDB1 1 "bob").2.2.2 1 "alice" (by decide)⟩
  exact ((deleteMessage_idempotent_and_local exDB1 1 "bob").2.1 exMsgDel (by rfl) (by decide)).2

/-- Reduction of the send handler on the path where validation and the
participant check pass: the message row is appended, the id counter
advances, the room row is touched with the preview, and the response is
the 500 caused by the undeclared identifier at notificationRoutes.js:997. -/
theorem sendMessage_reduction (db : DB) (senderId : String) (inp : SendInput) (roomId : Nat)
    (hcid : inp.chatRoomId = some roomId)
    (hvalid : (!strTruthy inp.text && inp.files.isEmpty) = false)
    (hpart : db.chat_rooms.countP (fun r => r.id == roomId && r.participants.contains senderId) ≠ 0) :
    sendMessage db senderId inp =
      ({ chat_rooms := db.chat_rooms.map (fun r =>
            if r.id == roomId then
              { r with
                last_message :=
                  if strTruthy inp.text then (inp.text.getD "").take 100
                  else if (inp.files.map (fun f =>
                      ({ name := f.originalname, type := f.mimetype,
                         url := publicUrl roomId senderId db.now f.originalname } : FileMeta))).length > 0 then
                    "Sent " ++ toString (inp.files.map (fun f =>
                      ({ name := f.originalname, type := f.mimetype,
                         url := publicUrl roomId senderId db.now f.originalname } : FileMeta))).length ++ " file(s)"
                  else ""
                last_message_timestamp := db.now }
            else r)
         messages := db.messages ++
           [{ id := db.nextMessageId, chat_id := roomId, sender_id := senderId,
              text := orNull inp.text,
              files_urls := if (inp.files.map (fun f =>
                  ({ name := f.originalname, type := f.mimetype,
                     url := publicUrl roomId senderId db.now f.originalname } : FileMeta))).length > 0 then
                  some (inp.files.map (fun f =>
                  ({ name := f.originalname, type := f.mimetype,
                     url := publicUrl roomId senderId db.now f.originalname } : FileMeta)))
                else none,
              reply_to_message_id := inp.replyToMessageId,
              created_at := db.now, is_edited := false, is_pinned := false, deleted_by := none }]
         blocked_users := db.blocked_users
         nextMessageId := db.nextMessageId + 1
         nextRoomId := db.nextRoomId
         now := db.now }, .error .internal) := by
  unfold sendMessage
  rw [hcid]
  dsimp only
  rw [hvalid, if_neg Bool.false_ne_true, if_neg hpart]

/-- C9: after a send whose validation and participant check pass, the
room row carries a preview equal to the first 100 characters of the text
or, when no text was supplied, a textual count of the attached files, and
its last-activity timestamp is set to the server clock. -/
theorem sendMessage_touches_room (db : DB) (senderId : String) (inp : SendInput) (roomId : Nat)
    (hcid : inp.chatRoomId = some roomId)
    (hvalid : (!strTruthy inp.text && inp.files.isEmpty) = false)
    (hpart : db.chat_rooms.countP (fun r => r.id == roomId && r.participants.contains senderId) ≠ 0) :
    ∀ r ∈ (sendMessage db senderId inp).1.chat_rooms, r.id = roomId →
      r.last_message = (if strTruthy inp.text then (inp.text.getD "").take 100
        else "Sent " ++ toString inp.files.length ++ " file(s)")
      ∧ r.last_message_timestamp = db.now := by
  rw [sendMessage_reduction db senderId inp roomId hcid hvalid hpart]
  intro r hr hid
  dsimp only at hr
  obtain ⟨r0, hr0, hmap⟩ := List.mem_map.mp hr
  by_cases h0 : (r0.id == roomId) = true
  · rw [if_pos h0] at hmap
    rw [← hmap]
    refine ⟨?_, rfl⟩
    dsimp only
    by_cases ht : strTruthy inp.text = true
    · rw [if_pos ht, if_pos ht]
    · have hstf : strTruthy inp.text = false := by
        rwa [Bool.not_eq_true] at ht
      have hie : inp.files.isEmpty = false := by
        rw [hstf] at hvalid
        simpa using hvalid
      have hlenpos : inp.files.length > 0 := by
        rw [List.isEmpty_eq_false] at hie
        exact List.length_pos.mpr hie
      rw [if_neg ht, if_neg ht, List.length_map]
      rw [if_pos hlenpos]
  · rw [if_neg h0] at hmap
    rw [← hmap] at hid
    exact absurd (beq_iff_eq.mpr hid) h0

/-- C4: starting from a room with no messages, sending the text "hello"
with no attachments and then listing the messages as a participant viewer
returns exactly one message, whose text is "hello", whose edited flag is
false and whose attachment list is empty. -/
theorem send_hello_roundtrip (db : DB) (roomId : Nat) (sender viewer : String)
    (hpart : db.chat_rooms.countP (fun r => r.id == roomId && r.participants.contains sender) ≠ 0)
    (hview : (db.chat_rooms.find? (fun r => r.id == roomId && r.participants.contains viewer)).isSome = true)
    (hempty : db.messages.filter (fun m => m.chat_id == roomId) = []) :
    ∃ v, getMessages (sendMessage db sender
        { chatRoomId := some roomId, text := some "hello", replyToMessageId := none,
          files := [] }).1 roomId viewer = .ok [v]
      ∧ v.text = some "hello" ∧ v.isEdited = false ∧ v.files = [] := by
  rw [sendMessage_reduction db sender
    { chatRoomId := some roomId, text := some "hello", replyToMessageId := none, files := [] }
    roomId rfl rfl hpart]
  unfold getMessages
  dsimp only
  rw [find?_map_pred _ _ _ (fun a => by
    by_cases h : (a.id == roomId) = true <;> simp [h])]
  obtain ⟨r, hr⟩ := Option.isSome_iff_exists.mp hview
  rw [hr]
  dsimp only [Option.map]
  rw [List.filter_append, hempty]
  simp only [List.nil_append, List.filter_cons, List.filter_nil, beq_self_eq_true, if_true]
  exact ⟨_, rfl, rfl, rfl, rfl⟩

/-- C6 (amended): under sequential invocation, once a create-chat-room
call for the distinct non-empty pair (a, b) has answered with a room id,
every later call for (a, b) or (b, a) answers with the same id without
changing the store, and the bound of at most one room containing both
users is preserved; the at-most-one bound under concurrent invocation is
refuted by the interleaving counterexample. -/
theorem createChatRoom_sequential_idempotent (db : DB) (a b : String)
    (ha : a ≠ "") (hb : b ≠ "") (hab : a ≠ b) (db1 : DB) (rid : Nat)
    (h1 : createChatRoom db a (some b) = (db1, .ok rid)) :
    createChatRoom db1 a (some b) = (db1, .ok rid)
    ∧ createChatRoom db1 b (some a) = (db1, .ok rid)
    ∧ (db.chat_rooms.countP
        (fun r => r.participants.contains a && r.participants.contains b) ≤ 1 →
      db1.chat_rooms.countP
        (fun r => r.participants.contains a && r.participants.contains b) ≤ 1) := by
  have hcond1 : ¬(b = "" ∨ a = b) := by
    rintro (h | h)
    exacts [hb h, hab h]
  have hcond2 : ¬(a = "" ∨ b = a) := by
    rintro (h | h)
    exacts [ha h, hab h.symm]
  have hflip : (fun r : ChatRoom => r.participants.contains b && r.participants.contains a)
      = (fun r => r.participants.contains a && r.participants.contains b) := by
    funext r
    exact Bool.and_comm _ _
  unfold createChatRoom at h1
  dsimp only at h1
  rw [if_neg hcond1] at h1
  cases hchk : createChatRoomCheck db a b with
  | some roomId =>
    rw [hchk] at h1
    dsimp only at h1
    injection h1 with hdb hok
    injection hok with hrid
    subst hdb
    subst hrid
    refine ⟨?_, ?_, fun h => h⟩
    · unfold createChatRoom
      dsimp only
      rw [if_neg hcond1, hchk]
    · have hchk2 : createChatRoomCheck db b a = some roomId := by
        unfold createChatRoomCheck at hchk ⊢
        rw [hflip]
        exact hchk
      unfold createChatRoom
      dsimp only
      rw [if_neg hcond2, hchk2]
  | none =>
    rw [hchk] at h1
    dsimp only at h1
    have hfindnone : db.chat_rooms.find?
        (fun r => r.participants.contains a && r.participants.contains b) = none := by
      unfold createChatRoomCheck at hchk
      exact Option.map_eq_none'.mp hchk
    have hnewp : ((fun r : ChatRoom => r.participants.contains a && r.participants.contains b)
        { id := db.nextRoomId, participants := [a, b], last_message := "",
          last_message_timestamp := db.now }) = true := by
      simp
    have hchk1 : createChatRoomCheck (createChatRoomInsert db a b).1 a b
        = some (createChatRoomInsert db a b).2 := by
      unfold createChatRoomCheck createChatRoomInsert
      dsimp only
      rw [List.find?_append, hfindnone]
      simp [List.find?, hnewp]
    have hchk2 : createChatRoomCheck (createChatRoomInsert db a b).1 b a
        = some (createChatRoomInsert db a b).2 := by
      unfold createChatRoomCheck createChatRoomInsert
      dsimp only
      rw [hflip, List.find?_append, hfindnone]
      simp [List.find?, hnewp]
    injection h1 with hdb hok
    injection hok with hrid
    subst hdb
    subst hrid
    refine ⟨?_, ?_, ?_⟩
    · unfold createChatRoom
      dsimp only
      rw [if_neg hcond1, hchk1]
    · unfold createChatRoom
      dsimp only
      rw [if_neg hcond2, hchk2]
    · intro _h
      unfold createChatRoomInsert
      dsimp only
      rw [List.countP_append]
      have hz : db.chat_rooms.countP
          (fun r => r.participants.contains a && r.participants.contains b) = 0 := by
        rw [List.countP_eq_zero]
        intro x hx hpx
        rw [List.find?_eq_none] at hfindnone
        exact hfindnone x hx hpx
      rw [hz]
      simp [List.countP_cons, hnewp]

/-- The room row of exDB0 after the hello send touched it. -/
def exRoomTouched : ChatRoom :=
  { id := 1, participants := ["alice", "bob"], last_message := "hello",
    last_message_timestamp := 10 }

set_option maxRecDepth 4000 in
/-- C9 witness: the hello send into room 1 leaves the room row with the
preview "hello" and the clock value 10. -/
theorem sendMessage_touches_room_witness :
    exRoomTouched.last_message = (if strTruthy sendHello.text then (sendHello.text.getD "").take 100
      else "Sent " ++ toString sendHello.files.length ++ " file(s)")
    ∧ exRoomTouched.last_message_timestamp = exDB0.now :=
  sendMessage_touches_room exDB0 "alice" sendHello 1 rfl rfl (by decide)
    exRoomTouched (by decide) rfl

/-- C4 witness: the round trip instantiated in the alice-bob room. -/
theorem send_hello_roundtrip_witness :
    ∃ v, getMessages (sendMessage exDB0 "alice" sendHello).1 1 "bob" = .ok [v]
      ∧ v.text = some "hello" ∧ v.isEdited = false ∧ v.files = [] :=
  send_hello_roundtrip exDB0 1 "alice" "bob" (by decide) (by decide) rfl

/-- The store after the first create-chat-room call for (alice, bob). -/
def exDBroom : DB :=
  { chat_rooms := [exRoom], messages := [], blocked_users := [],
    nextMessageId := 1, nextRoomId := 2, now := 0 }

/-- C6 witness: after alice created the room with bob, both orders of the
pair keep answering room 1 without growing the store. -/
theorem createChatRoom_sequential_idempotent_witness :
    createChatRoom exDBroom "alice" (some "bob") = (exDBroom, .ok 1)
    ∧ createChatRoom exDBroom "bob" (some "alice") = (exDBroom, .ok 1)
    ∧ exDBroom.chat_rooms.countP
        (fun r => r.participants.contains "alice" && r.participants.contains "bob") ≤ 1 := by
  have h := createChatRoom_sequential_idempotent dbEmpty "alice" "bob" (by decide) (by decide)
    (by decide) exDBroom 1 (by rfl)
  exact ⟨h.1, h.2.1, h.2.2 (by decide)⟩

end NextLens
